import Mathlib

/-!
Verification of the Progress & Assessment Engine of the philosofium backend:
the test attempt grader (TestsController.UpdateTestProgress), the course
progress tracker (CoursesController.UpdateCourseProgress), the login streak
tracker (AuthController.Login) and the test listing endpoints
(GetUserTests / GetAvailableTests), shallowly embedded in Lean.

Go ints are modelled as ℤ, Go uints as ℕ, Go float64 values as rationals
together with the non-finite values an unguarded float division produces
(`GoFloat` below), and timestamps as ℤ (seconds).
-/

/-- Result of a Go float64 computation in this codebase: either a finite value
(modelled exactly as a rational) or one of the non-finite values produced by
dividing by zero (0/0 is NaN, n/0 is ±Inf for n ≠ 0). -/
inductive GoFloat where
  | finite : ℚ → GoFloat
  | nan : GoFloat
  | posInf : GoFloat
  | negInf : GoFloat
deriving DecidableEq

/-- Whether a GoFloat is a finite value. -/
def GoFloat.isFinite : GoFloat → Bool
  | .finite _ => true
  | _ => false

/-- Model of the Go expression float64(num) / float64(den) * 100 for finite
num and den: an unguarded division, so a zero denominator yields NaN when the
numerator is 0 and ±Inf otherwise (multiplying a non-finite value by 100
leaves it non-finite with the same sign). -/
def pctOf (num den : ℚ) : GoFloat :=
  if den = 0 then
    if num = 0 then .nan
    else if 0 < num then .posInf
    else .negInf
  else .finite (num / den * 100)

/-- models.TestQuestion, restricted to the fields grading reads:
the primary key and the correct option index. -/
structure TestQuestion where
  id : ℕ
  correctAnswer : ℤ
deriving DecidableEq

/-- The AnswerInput element of UpdateTestProgress's request body:
a question id and the chosen option index. -/
structure AnswerInput where
  questionID : ℕ
  answer : ℤ
deriving DecidableEq

/-- models.UserTestProgress, restricted to the fields the engine touches. -/
structure UserTestProgress where
  questionsAnswered : ℤ
  correctAnswers : ℤ
  score : GoFloat
  attemptsUsed : ℤ
  lastAttempt : ℤ
deriving DecidableEq

/-- The record UpdateTestProgress builds when no row exists for
(user_id, test_id): all counters zero. This coincides with the Go zero value
the listing endpoints are left with when First finds no row. -/
def initTestProgress : UserTestProgress :=
  { questionsAnswered := 0, correctAnswers := 0, score := .finite 0
    attemptsUsed := 0, lastAttempt := 0 }

/-- The grading error of UpdateTestProgress: the 403 "No attempts left". -/
inductive GradingError where
  | attemptsExhausted
deriving DecidableEq

instance {ε α : Type} [DecidableEq ε] [DecidableEq α] : DecidableEq (Except ε α)
  | .error a, .error b => decidable_of_iff (a = b) (by simp)
  | .ok a, .ok b => decidable_of_iff (a = b) (by simp)
  | .error _, .ok _ => isFalse (by simp)
  | .ok _, .error _ => isFalse (by simp)

/-- The answer-processing loop of UpdateTestProgress: for each submitted
answer, look the question up by id; a missing question is skipped (continue),
a present one counts iff the chosen index equals CorrectAnswer. -/
def countCorrect (questions : List TestQuestion) : List AnswerInput → ℤ
  | [] => 0
  | a :: rest =>
    match questions.find? (fun q => q.id == a.questionID) with
    | none => countCorrect questions rest
    | some q => (if a.answer = q.correctAnswer then 1 else 0) + countCorrect questions rest

/-- TestsController.UpdateTestProgress, the state transition only: start from
the stored row (or the fresh zero record), reject with AttemptsExhausted when
AttemptsUsed >= AttemptsAllowed && AttemptsAllowed > 0, otherwise grade the
submitted answers against the test's questions and overwrite the record.
The score divides by the test's total question count. -/
def updateTestProgress (stored : Option UserTestProgress) (attemptsAllowed : ℤ)
    (questions : List TestQuestion) (answers : List AnswerInput) (now : ℤ) :
    Except GradingError UserTestProgress :=
  if (stored.getD initTestProgress).attemptsUsed ≥ attemptsAllowed ∧ 0 < attemptsAllowed then
    .error .attemptsExhausted
  else
    .ok { questionsAnswered := (answers.length : ℤ)
          correctAnswers := countCorrect questions answers
          score := pctOf (countCorrect questions answers : ℚ) (questions.length : ℚ)
          attemptsUsed := (stored.getD initTestProgress).attemptsUsed + 1
          lastAttempt := now }

/-- What is stored after a call to UpdateTestProgress: the handler returns
before DB.Save on the error path, so the stored row is unchanged there, and
persists the rebuilt record on success. -/
def persistedAfter (stored : Option UserTestProgress) (attemptsAllowed : ℤ)
    (questions : List TestQuestion) (answers : List AnswerInput) (now : ℤ) :
    Option UserTestProgress :=
  match updateTestProgress stored attemptsAllowed questions answers now with
  | .error _ => stored
  | .ok p => some p

/-- The per-test "progress" value of GetUserTests and GetAvailableTests:
float64(CorrectAnswers) / float64(QuestionsAnswered) * 100 over the row First
loaded, which is the Go zero value when no row exists. -/
def listingProgress (stored : Option UserTestProgress) : GoFloat :=
  let p := stored.getD initTestProgress
  pctOf (p.correctAnswers : ℚ) (p.questionsAnswered : ℚ)

/-- A test-progress record the system can actually store: the fresh zero
record, or the output of a successful grading call. -/
def ReachableTestProgress (p : UserTestProgress) : Prop :=
  p = initTestProgress ∨
    ∃ stored attemptsAllowed questions answers now,
      updateTestProgress stored attemptsAllowed questions answers now = .ok p

/-- models.UserCourseProgress, restricted to the fields the engine touches. -/
structure UserCourseProgress where
  lessonsCompleted : ℤ
  hoursSpent : ℚ
  completionRate : GoFloat
  lastAccessed : ℤ
deriving DecidableEq

/-- The ProgressInput body of UpdateCourseProgress. The lesson id is parsed
but never consulted by the update. -/
structure CourseProgressInput where
  lessonID : ℕ
  hoursSpent : ℚ
  markCompleted : Bool
deriving DecidableEq

/-- The record UpdateCourseProgress builds when no row exists for
(user_id, course_id). -/
def initCourseProgress : UserCourseProgress :=
  { lessonsCompleted := 0, hoursSpent := 0, completionRate := .finite 0
    lastAccessed := 0 }

/-- CoursesController.UpdateCourseProgress, the state transition only: start
from the stored row (or the fresh zero record); if MarkCompleted, increment
LessonsCompleted; add HoursSpent to the total (no validation of its sign);
recompute CompletionRate as LessonsCompleted / len(course.Lessons) * 100;
stamp LastAccessed. There is no error path. -/
def updateCourseProgress (stored : Option UserCourseProgress) (totalLessons : ℕ)
    (input : CourseProgressInput) (now : ℤ) : UserCourseProgress :=
  let p := stored.getD initCourseProgress
  let lessons := if input.markCompleted then p.lessonsCompleted + 1 else p.lessonsCompleted
  { lessonsCompleted := lessons
    hoursSpent := p.hoursSpent + input.hoursSpent
    completionRate := pctOf (lessons : ℚ) (totalLessons : ℚ)
    lastAccessed := now }

/-- models.UserProgress, the activity record of the streak tracker. -/
structure UserProgress where
  lastActive : ℤ
  streakDays : ℤ
  coursesCompleted : ℤ
  testsCompleted : ℤ
deriving DecidableEq

/-- Forty-eight hours in seconds, the streak threshold of AuthController.Login. -/
def fortyEightHours : ℤ := 48 * 3600

/-- The streak portion of AuthController.Login: with no record, create one
with StreakDays 1 and LastActive now; otherwise increment StreakDays when
time.Since(LastActive) < 48h and reset it to 1 otherwise, overwriting
LastActive with now in both branches. -/
def recordLogin (stored : Option UserProgress) (now : ℤ) : UserProgress :=
  match stored with
  | none =>
      { lastActive := now, streakDays := 1, coursesCompleted := 0, testsCompleted := 0 }
  | some p =>
      { p with
        streakDays := if now - p.lastActive < fortyEightHours then p.streakDays + 1 else 1
        lastActive := now }

/-- Helper: the quota check of updateTestProgress fires exactly when the code
condition AttemptsUsed >= AttemptsAllowed && AttemptsAllowed > 0 holds. -/
theorem updateTestProgress_error_iff (stored : Option UserTestProgress)
    (attemptsAllowed : ℤ) (questions : List TestQuestion)
    (answers : List AnswerInput) (now : ℤ) :
    updateTestProgress stored attemptsAllowed questions answers now =
        .error .attemptsExhausted ↔
      attemptsAllowed ≤ (stored.getD initTestProgress).attemptsUsed ∧
        0 < attemptsAllowed := by
  unfold updateTestProgress
  split
  · next h => simpa using h
  · next h => simpa using h

/-- Helper: the shape of a successful grading result. -/
theorem updateTestProgress_ok_shape (stored : Option UserTestProgress)
    (attemptsAllowed : ℤ) (questions : List TestQuestion)
    (answers : List AnswerInput) (now : ℤ) (p : UserTestProgress)
    (hok : updateTestProgress stored attemptsAllowed questions answers now = .ok p) :
    p = { questionsAnswered := (answers.length : ℤ)
          correctAnswers := countCorrect questions answers
          score := pctOf (countCorrect questions answers : ℚ) (questions.length : ℚ)
          attemptsUsed := (stored.getD initTestProgress).attemptsUsed + 1
          lastAttempt := now } := by
  unfold updateTestProgress at hok
  split at hok
  · exact absurd hok (by simp)
  · simpa using hok.symm

/-- Claim C1: the grader returns AttemptsExhausted iff attempts_allowed > 0
and the current record's attempts_used >= attempts_allowed (attempts_allowed
== 0 bypasses the check), and on that error the stored record is unchanged. -/
theorem updateTestProgress_attemptsExhausted_spec (stored : Option UserTestProgress)
    (attemptsAllowed : ℤ) (questions : List TestQuestion)
    (answers : List AnswerInput) (now : ℤ) :
    (updateTestProgress stored attemptsAllowed questions answers now =
        .error .attemptsExhausted ↔
      0 < attemptsAllowed ∧
        attemptsAllowed ≤ (stored.getD initTestProgress).attemptsUsed) ∧
    (updateTestProgress stored attemptsAllowed questions answers now =
        .error .attemptsExhausted →
      persistedAfter stored attemptsAllowed questions answers now = stored) := by
  constructor
  · rw [updateTestProgress_error_iff, and_comm]
  · intro herr
    unfold persistedAfter
    rw [herr]

/-- Witness for C1: attempts_allowed = 2 and attempts_used = 2 is rejected
and the stored record survives unchanged. -/
theorem updateTestProgress_attemptsExhausted_spec_witness :
    updateTestProgress (some { initTestProgress with attemptsUsed := 2 }) 2 [] [] 5 =
        .error .attemptsExhausted ∧
      persistedAfter (some { initTestProgress with attemptsUsed := 2 }) 2 [] [] 5 =
        some { initTestProgress with attemptsUsed := 2 } := by
  have h := updateTestProgress_attemptsExhausted_spec
    (some { initTestProgress with attemptsUsed := 2 }) 2 [] [] 5
  have herr := h.1.mpr (by decide)
  exact ⟨herr, h.2 herr⟩

/-- Claim C2: on success with a positive question count, score equals
correct_answers / totalQuestions * 100, the denominator being the test's
total question count and not the number of submitted answers. -/
theorem updateTestProgress_score_formula (stored : Option UserTestProgress)
    (attemptsAllowed : ℤ) (questions : List TestQuestion)
    (answers : List AnswerInput) (now : ℤ) (p : UserTestProgress)
    (hok : updateTestProgress stored attemptsAllowed questions answers now = .ok p)
    (hq : 0 < questions.length) :
    p.score = .finite ((p.correctAnswers : ℚ) / (questions.length : ℚ) * 100) := by
  have hshape := updateTestProgress_ok_shape stored attemptsAllowed questions answers now p hok
  subst hshape
  have hden : (questions.length : ℚ) ≠ 0 := by
    have : (0 : ℚ) < (questions.length : ℚ) := by exact_mod_cast hq
    exact ne_of_gt this
  simp [pctOf, hden]

/-- Witness for C2: a 5-question test with bank answers Q1 -> 0, Q2 -> 1,
submission [(Q1,0),(Q2,0)]: 2 answered, 1 correct, score 20 = 1/5*100. -/
theorem updateTestProgress_score_formula_witness :
    updateTestProgress none 0
        [⟨1, 0⟩, ⟨2, 1⟩, ⟨3, 0⟩, ⟨4, 0⟩, ⟨5, 0⟩] [⟨1, 0⟩, ⟨2, 0⟩] 7 =
      .ok { questionsAnswered := 2, correctAnswers := 1, score := .finite 20
            attemptsUsed := 1, lastAttempt := 7 } ∧
    GoFloat.finite 20 =
      .finite (((1 : ℤ) : ℚ) /
        (([(⟨1, 0⟩ : TestQuestion), ⟨2, 1⟩, ⟨3, 0⟩, ⟨4, 0⟩, ⟨5, 0⟩].length : ℕ) : ℚ) * 100) := by
  have hc : countCorrect [⟨1, 0⟩, ⟨2, 1⟩, ⟨3, 0⟩, ⟨4, 0⟩, ⟨5, 0⟩] [⟨1, 0⟩, ⟨2, 0⟩] = 1 := by
    decide
  have hok : updateTestProgress none 0
      [⟨1, 0⟩, ⟨2, 1⟩, ⟨3, 0⟩, ⟨4, 0⟩, ⟨5, 0⟩] [⟨1, 0⟩, ⟨2, 0⟩] 7 =
      .ok { questionsAnswered := 2, correctAnswers := 1, score := .finite 20
            attemptsUsed := 1, lastAttempt := 7 } := by
    unfold updateTestProgress
    rw [if_neg (by decide)]
    simp only [hc]
    norm_num [pctOf, initTestProgress]
  have h := updateTestProgress_score_formula none 0
    [⟨1, 0⟩, ⟨2, 1⟩, ⟨3, 0⟩, ⟨4, 0⟩, ⟨5, 0⟩] [⟨1, 0⟩, ⟨2, 0⟩] 7 _ hok (by decide)
  exact ⟨hok, by simpa using h⟩

/-- Claim C6: on success questions_answered counts every submitted answer,
unknown question ids included; correct_answers is the grading loop's count,
and an answer whose id is absent from the bank contributes nothing to it. -/
theorem updateTestProgress_answer_counting (stored : Option UserTestProgress)
    (attemptsAllowed : ℤ) (questions : List TestQuestion)
    (answers : List AnswerInput) (now : ℤ) (p : UserTestProgress)
    (hok : updateTestProgress stored attemptsAllowed questions answers now = .ok p) :
    p.questionsAnswered = (answers.length : ℤ) ∧
    p.correctAnswers = countCorrect questions answers ∧
    ∀ a rest, questions.find? (fun q => q.id == a.questionID) = none →
      countCorrect questions (a :: rest) = countCorrect questions rest := by
  have hshape := updateTestProgress_ok_shape stored attemptsAllowed questions answers now p hok
  subst hshape
  refine ⟨rfl, rfl, fun a rest hfind => ?_⟩
  simp only [countCorrect, hfind]

/-- Witness for C6: a bank with only question 1; submitting an answer to
question 1 and one to unknown question 99 counts 2 answered, 1 correct. -/
theorem updateTestProgress_answer_counting_witness :
    updateTestProgress none 0 [⟨1, 0⟩] [⟨1, 0⟩, ⟨99, 0⟩] 7 =
      .ok { questionsAnswered := 2, correctAnswers := 1, score := .finite 100
            attemptsUsed := 1, lastAttempt := 7 } ∧
    (2 : ℤ) = (([(⟨1, 0⟩ : AnswerInput), ⟨99, 0⟩].length : ℕ) : ℤ) ∧
    countCorrect [⟨1, 0⟩] [(⟨99, 0⟩ : AnswerInput)] =
      countCorrect [⟨1, 0⟩] [] := by
  have hc : countCorrect [⟨1, 0⟩] [⟨1, 0⟩, ⟨99, 0⟩] = 1 := by decide
  have hok : updateTestProgress none 0 [⟨1, 0⟩] [⟨1, 0⟩, ⟨99, 0⟩] 7 =
      .ok { questionsAnswered := 2, correctAnswers := 1, score := .finite 100
            attemptsUsed := 1, lastAttempt := 7 } := by
    unfold updateTestProgress
    rw [if_neg (by decide)]
    simp only [hc]
    norm_num [pctOf, initTestProgress]
  have h := updateTestProgress_answer_counting none 0 [⟨1, 0⟩] [⟨1, 0⟩, ⟨99, 0⟩] 7 _ hok
  refine ⟨hok, by simp [h.1], h.2.2 ⟨99, 0⟩ [] (by decide)⟩

/-- Claim C10: grading overwrites rather than accumulates: two prior records
that both pass the quota check yield identical questions_answered,
correct_answers and score for the same submission and bank, while
attempts_used is the respective prior value plus one. -/
theorem updateTestProgress_overwrites (s1 s2 : Option UserTestProgress)
    (attemptsAllowed : ℤ) (questions : List TestQuestion)
    (answers : List AnswerInput) (now : ℤ) (p1 p2 : UserTestProgress)
    (h1 : updateTestProgress s1 attemptsAllowed questions answers now = .ok p1)
    (h2 : updateTestProgress s2 attemptsAllowed questions answers now = .ok p2) :
    p1.questionsAnswered = p2.questionsAnswered ∧
    p1.correctAnswers = p2.correctAnswers ∧
    p1.score = p2.score ∧
    p1.attemptsUsed = (s1.getD initTestProgress).attemptsUsed + 1 ∧
    p2.attemptsUsed = (s2.getD initTestProgress).attemptsUsed + 1 := by
  have hs1 := updateTestProgress_ok_shape s1 attemptsAllowed questions answers now p1 h1
  have hs2 := updateTestProgress_ok_shape s2 attemptsAllowed questions answers now p2 h2
  subst hs1
  subst hs2
  exact ⟨rfl, rfl, rfl, rfl, rfl⟩

/-- Witness for C10: two different prior records (a fresh one and one with
3 attempts and stale counters) grade the same submission identically under an
unlimited policy, each advancing its own attempts_used by one. -/
theorem updateTestProgress_overwrites_witness :
    updateTestProgress none 0 [⟨1, 0⟩] [⟨1, 0⟩] 7 =
      .ok { questionsAnswered := 1, correctAnswers := 1, score := .finite 100
            attemptsUsed := 1, lastAttempt := 7 } ∧
    updateTestProgress
        (some { questionsAnswered := 9, correctAnswers := 4, score := .finite 44
                attemptsUsed := 3, lastAttempt := 2 }) 0 [⟨1, 0⟩] [⟨1, 0⟩] 7 =
      .ok { questionsAnswered := 1, correctAnswers := 1, score := .finite 100
            attemptsUsed := 4, lastAttempt := 7 } ∧
    (1 : ℤ) = 0 + 1 ∧ (4 : ℤ) = 3 + 1 := by
  have hc : countCorrect [⟨1, 0⟩] [⟨1, 0⟩] = 1 := by decide
  have h1 : updateTestProgress none 0 [⟨1, 0⟩] [⟨1, 0⟩] 7 =
      .ok { questionsAnswered := 1, correctAnswers := 1, score := .finite 100
            attemptsUsed := 1, lastAttempt := 7 } := by
    unfold updateTestProgress
    rw [if_neg (by decide)]
    simp only [hc]
    norm_num [pctOf, initTestProgress]
  have h2 : updateTestProgress
      (some { questionsAnswered := 9, correctAnswers := 4, score := .finite 44
              attemptsUsed := 3, lastAttempt := 2 }) 0 [⟨1, 0⟩] [⟨1, 0⟩] 7 =
      .ok { questionsAnswered := 1, correctAnswers := 1, score := .finite 100
            attemptsUsed := 4, lastAttempt := 7 } := by
    unfold updateTestProgress
    rw [if_neg (by decide)]
    simp only [hc]
    norm_num [pctOf]
  have h := updateTestProgress_overwrites none
    (some { questionsAnswered := 9, correctAnswers := 4, score := .finite 44
            attemptsUsed := 3, lastAttempt := 2 }) 0 [⟨1, 0⟩] [⟨1, 0⟩] 7 _ _ h1 h2
  exact ⟨h1, h2, by simp [h.2.2.2.1], by simp [h.2.2.2.2]⟩

/-- Claim C3: a first login creates the record with streak_days 1 and
last_active now; a subsequent login increments the streak exactly when
now - last_active is strictly below 48 hours and resets it to 1 otherwise,
and last_active is overwritten with now in every branch. -/
theorem recordLogin_streak_spec (stored : Option UserProgress) (now : ℤ) :
    (stored = none →
      recordLogin stored now =
        { lastActive := now, streakDays := 1, coursesCompleted := 0, testsCompleted := 0 }) ∧
    ∀ p, stored = some p →
      (recordLogin stored now).lastActive = now ∧
      (now - p.lastActive < fortyEightHours →
        (recordLogin stored now).streakDays = p.streakDays + 1) ∧
      (fortyEightHours ≤ now - p.lastActive →
        (recordLogin stored now).streakDays = 1) := by
  refine ⟨fun hnone => ?_, fun p hsome => ?_⟩
  · subst hnone
    rfl
  · subst hsome
    refine ⟨rfl, fun hlt => ?_, fun hge => ?_⟩
    · simp [recordLogin, hlt]
    · simp [recordLogin, not_lt.mpr hge]

/-- Witness for C3: logging in 47h59m (172740 s) after a streak-3 record
increments the streak to 4, logging in 48h01m (172860 s) after it resets the
streak to 1, and a first login yields streak 1; last_active becomes now. -/
theorem recordLogin_streak_spec_witness :
    recordLogin none 5 =
      { lastActive := 5, streakDays := 1, coursesCompleted := 0, testsCompleted := 0 } ∧
    (recordLogin (some ⟨0, 3, 0, 0⟩) 172740).streakDays = 4 ∧
    (recordLogin (some ⟨0, 3, 0, 0⟩) 172740).lastActive = 172740 ∧
    (recordLogin (some ⟨0, 3, 0, 0⟩) 172860).streakDays = 1 := by
  have hfirst := (recordLogin_streak_spec none 5).1 rfl
  have hinc := (recordLogin_streak_spec (some ⟨0, 3, 0, 0⟩) 172740).2 ⟨0, 3, 0, 0⟩ rfl
  have hreset := (recordLogin_streak_spec (some ⟨0, 3, 0, 0⟩) 172860).2 ⟨0, 3, 0, 0⟩ rfl
  refine ⟨hfirst, ?_, hinc.1, hreset.2.2 (by decide)⟩
  have h4 := hinc.2.1 (by decide)
  simpa using h4

/-- Claim C7: with a positive lesson count the stored completion_rate is
exactly lessons_completed / totalLessons * 100, deterministically (the update
is a pure function of its inputs), with no clamping: when lessons_completed
exceeds totalLessons the rate exceeds 100 and is reported as-is. -/
theorem updateCourseProgress_rate_formula (stored : Option UserCourseProgress)
    (totalLessons : ℕ) (input : CourseProgressInput) (now : ℤ)
    (hpos : 0 < totalLessons) :
    (updateCourseProgress stored totalLessons input now).completionRate =
      .finite
        (((updateCourseProgress stored totalLessons input now).lessonsCompleted : ℚ) /
          (totalLessons : ℚ) * 100) ∧
    ((totalLessons : ℤ) < (updateCourseProgress stored totalLessons input now).lessonsCompleted →
      ∃ r, (updateCourseProgress stored totalLessons input now).completionRate = .finite r ∧
        100 < r) := by
  have hden : (totalLessons : ℚ) ≠ 0 := by
    have : (0 : ℚ) < (totalLessons : ℚ) := by exact_mod_cast hpos
    exact ne_of_gt this
  have hrate : (updateCourseProgress stored totalLessons input now).completionRate =
      .finite
        (((updateCourseProgress stored totalLessons input now).lessonsCompleted : ℚ) /
          (totalLessons : ℚ) * 100) := by
    simp [updateCourseProgress, pctOf, hden]
  refine ⟨hrate, fun hover => ⟨_, hrate, ?_⟩⟩
  have htQ : (0 : ℚ) < (totalLessons : ℚ) := by exact_mod_cast hpos
  have hlQ : (totalLessons : ℚ) <
      ((updateCourseProgress stored totalLessons input now).lessonsCompleted : ℚ) := by
    exact_mod_cast hover
  have hdiv : (1 : ℚ) <
      ((updateCourseProgress stored totalLessons input now).lessonsCompleted : ℚ) /
        (totalLessons : ℚ) := (one_lt_div htQ).mpr hlQ
  calc (100 : ℚ) = 1 * 100 := by norm_num
    _ < ((updateCourseProgress stored totalLessons input now).lessonsCompleted : ℚ) /
          (totalLessons : ℚ) * 100 := by
        exact (mul_lt_mul_right (by norm_num)).mpr hdiv

/-- Witness for C7: a stored record with 5 completed lessons on a 4-lesson
course reports completion_rate 125, uncapped. -/
theorem updateCourseProgress_rate_formula_witness :
    (updateCourseProgress (some ⟨5, 0, .finite 0, 0⟩) 4 ⟨1, 0, false⟩ 9).completionRate =
      .finite 125 ∧
    (100 : ℚ) < 125 := by
  have h := updateCourseProgress_rate_formula (some ⟨5, 0, .finite 0, 0⟩) 4 ⟨1, 0, false⟩ 9
    (by decide)
  have hrate := h.1
  have hlessons :
      (updateCourseProgress (some ⟨5, 0, .finite 0, 0⟩) 4 ⟨1, 0, false⟩ 9).lessonsCompleted =
        5 := by decide
  rw [hlessons] at hrate
  refine ⟨?_, by norm_num⟩
  rw [hrate]
  norm_num

/-- Claim C8: a markCompleted event always increments lessons_completed by
exactly 1, with no per-lesson idempotency check (the lesson id is ignored),
so two identical completion events for the same lesson add 2 in total. -/
theorem updateCourseProgress_not_idempotent (stored : Option UserCourseProgress)
    (totalLessons : ℕ) (lessonID : ℕ) (h1 h2 : ℚ) (now1 now2 : ℤ) :
    (updateCourseProgress stored totalLessons ⟨lessonID, h1, true⟩ now1).lessonsCompleted =
      (stored.getD initCourseProgress).lessonsCompleted + 1 ∧
    (updateCourseProgress
        (some (updateCourseProgress stored totalLessons ⟨lessonID, h1, true⟩ now1))
        totalLessons ⟨lessonID, h2, true⟩ now2).lessonsCompleted =
      (stored.getD initCourseProgress).lessonsCompleted + 2 := by
  constructor
  · simp [updateCourseProgress]
  · simp [updateCourseProgress]
    ring

/-- Helper: a percentage with zero denominator is never a finite value. -/
theorem pctOf_zero_den_not_finite (num : ℚ) : (pctOf num 0).isFinite = false := by
  unfold pctOf
  rw [if_pos rfl]
  split_ifs <;> rfl

/-- Helper: grading against an empty question bank matches no answer. -/
theorem countCorrect_nil_bank (answers : List AnswerInput) :
    countCorrect [] answers = 0 := by
  induction answers with
  | nil => rfl
  | cons a rest ih => simpa [countCorrect] using ih

/-- Counterexample to claim C4: at totalLessons = 0 the course update stores
completion_rate NaN (the unguarded 0/0), and at totalQuestions = 0 the grader
stores score NaN; neither is the finite value 0 the claim asserts. -/
theorem zero_denominator_counterexample :
    (updateCourseProgress none 0 ⟨1, 0, false⟩ 3).completionRate = .nan ∧
    updateTestProgress none 0 [] [] 3 =
      .ok { questionsAnswered := 0, correctAnswers := 0, score := .nan
            attemptsUsed := 1, lastAttempt := 3 } ∧
    GoFloat.nan ≠ .finite 0 := by
  refine ⟨?_, ?_, by decide⟩
  · norm_num [updateCourseProgress, initCourseProgress, pctOf]
  · unfold updateTestProgress
    rw [if_neg (by decide)]
    norm_num [pctOf, countCorrect, initTestProgress]

/-- Claim C4 as the code actually behaves (amended): with an empty catalog the
unguarded float division yields a non-finite value, never 0 — a course update
with totalLessons = 0 stores a non-finite completion_rate (NaN for the 0/0
case, ±Inf otherwise), and a successful submission against a test with zero
questions stores score NaN. -/
theorem zero_denominator_nonfinite (storedC : Option UserCourseProgress)
    (input : CourseProgressInput) (now : ℤ) (storedT : Option UserTestProgress)
    (attemptsAllowed : ℤ) (answers : List AnswerInput) (now2 : ℤ)
    (p : UserTestProgress)
    (hok : updateTestProgress storedT attemptsAllowed [] answers now2 = .ok p) :
    ((updateCourseProgress storedC 0 input now).completionRate).isFinite = false ∧
    p.score = GoFloat.nan := by
  constructor
  · have : (updateCourseProgress storedC 0 input now).completionRate =
        pctOf ((updateCourseProgress storedC 0 input now).lessonsCompleted : ℚ) ((0 : ℕ) : ℚ) := by
      simp [updateCourseProgress]
    rw [this]
    simpa using pctOf_zero_den_not_finite _
  · have hshape := updateTestProgress_ok_shape storedT attemptsAllowed [] answers now2 p hok
    subst hshape
    simp [countCorrect_nil_bank, pctOf]

/-- Witness for the amended C4: concrete zero-lesson and zero-question calls
produce NaN-valued rate and score. -/
theorem zero_denominator_nonfinite_witness :
    ((updateCourseProgress none 0 ⟨1, 0, false⟩ 3).completionRate).isFinite = false ∧
    updateTestProgress none 0 [] [] 3 =
      .ok { questionsAnswered := 0, correctAnswers := 0, score := .nan
            attemptsUsed := 1, lastAttempt := 3 } ∧
    GoFloat.nan = GoFloat.nan := by
  have hok : updateTestProgress none 0 [] [] 3 =
      .ok { questionsAnswered := 0, correctAnswers := 0, score := .nan
            attemptsUsed := 1, lastAttempt := 3 } := by
    unfold updateTestProgress
    rw [if_neg (by decide)]
    norm_num [pctOf, countCorrect, initTestProgress]
  have h := zero_denominator_nonfinite none ⟨1, 0, false⟩ 3 none 0 [] 3 _ hok
  exact ⟨h.1, hok, rfl⟩

/-- Counterexample to claim C5: a stored total of 5 hours plus a submitted
hoursSpent of -1 is accepted without any validation error and stored as 4 —
the negative amount is added, and the total decreases. -/
theorem negative_hours_counterexample :
    (updateCourseProgress (some ⟨0, 5, .finite 0, 0⟩) 4 ⟨1, -1, false⟩ 9).hoursSpent = 4 ∧
    (4 : ℚ) < 5 := by
  constructor
  · norm_num [updateCourseProgress]
  · norm_num

/-- Claim C5 as the code actually behaves (amended): UpdateCourseProgress has
no validation of hoursSpent — every call succeeds and adds the submitted
hoursSpent, negative included, to the stored total as-is (no clamping). -/
theorem updateCourseProgress_hours_added_as_is (stored : Option UserCourseProgress)
    (totalLessons : ℕ) (input : CourseProgressInput) (now : ℤ) :
    (updateCourseProgress stored totalLessons input now).hoursSpent =
      (stored.getD initCourseProgress).hoursSpent + input.hoursSpent := by
  simp [updateCourseProgress]

/-- Claim C9: the listing endpoints report CorrectAnswers / QuestionsAnswered
* 100 with no denominator guard, so a user with no progress row (the Go zero
value) or a stored row with QuestionsAnswered = 0 gets the 0/0 value NaN,
not 0. -/
theorem listingProgress_zero_denominator (stored : Option UserTestProgress) :
    (stored = none → listingProgress stored = .nan) ∧
    (∀ p, stored = some p → ReachableTestProgress p → p.questionsAnswered = 0 →
      listingProgress stored = .nan) ∧
    GoFloat.nan ≠ .finite 0 := by
  refine ⟨fun hnone => ?_, fun p hsome hreach hqa => ?_, by decide⟩
  · subst hnone
    simp [listingProgress, initTestProgress, pctOf]
  · subst hsome
    have hca : p.correctAnswers = 0 := by
      rcases hreach with hinit | ⟨s, a, qs, ans, n, hok⟩
      · rw [hinit]
        rfl
      · have hshape := updateTestProgress_ok_shape s a qs ans n p hok
        subst hshape
        have hqa' : ((ans.length : ℕ) : ℤ) = 0 := hqa
        have hlen : ans.length = 0 := by exact_mod_cast hqa'
        rw [List.length_eq_zero] at hlen
        subst hlen
        rfl
    simp [listingProgress, pctOf, hca, hqa]

/-- Witness for C9: the absent-record case, and a stored record produced by
grading an empty submission (0 questions answered) both report NaN. -/
theorem listingProgress_zero_denominator_witness :
    listingProgress none = .nan ∧
    listingProgress
      (some { questionsAnswered := 0, correctAnswers := 0, score := .finite 0
              attemptsUsed := 1, lastAttempt := 3 }) = .nan := by
  have h1 := (listingProgress_zero_denominator none).1 rfl
  have hok : updateTestProgress none 0 [⟨1, 0⟩] [] 3 =
      .ok { questionsAnswered := 0, correctAnswers := 0, score := .finite 0
            attemptsUsed := 1, lastAttempt := 3 } := by
    unfold updateTestProgress
    rw [if_neg (by decide)]
    norm_num [pctOf, countCorrect, initTestProgress]
  have h2 := (listingProgress_zero_denominator
      (some { questionsAnswered := 0, correctAnswers := 0, score := .finite 0
              attemptsUsed := 1, lastAttempt := 3 })).2.1
    { questionsAnswered := 0, correctAnswers := 0, score := .finite 0
      attemptsUsed := 1, lastAttempt := 3 } rfl
    (Or.inr ⟨none, 0, [⟨1, 0⟩], [], 3, hok⟩) rfl
  exact ⟨h1, h2⟩
